import Mathlib

/-!
Verification of the SurrealDB core value layer: the `Datetime` value type
(`crates/core/src/sql/datetime.rs`) and the resource-limit registry
(`crates/core/src/cnf/mod.rs`), shallowly embedded in Lean.

A chrono `DateTime<Utc>` is an instant with nanosecond resolution; we embed it
as its signed count of nanoseconds since the Unix epoch.  chrono's valid range
is bounded by `NaiveDate::MIN`/`MAX` (years -262144 to 262143), captured by
`Datetime.valid`.  Environment lookups become an `Option String` argument and
`str::parse` becomes an explicit digit parser with the integer width bound.
-/

set_option autoImplicit false

namespace Surreal

/-- Modelled from the spec: `crates/core/src/sql/duration.rs` is not under
src/.  Per the spec, a Duration is a non-negative elapsed-time magnitude
(wrapping `std::time::Duration`); we embed it as total nanoseconds.  Its
`Default` is the zero duration. -/
structure Duration where
  nanos : Nat
deriving DecidableEq, Repr

/-- `Duration::default()`: the zero duration. -/
def Duration.default : Duration := ⟨0⟩

/-- Modelled from the spec: `crates/core/src/err/mod.rs` is not under src/.
The variant name and its message payload are visible at the use site in
`datetime.rs`: a typed arithmetic error carrying the rendered operands. -/
inductive Error where
  | arithmeticNegativeOverflow (msg : String)
deriving DecidableEq, Repr

/-- `Datetime(pub DateTime<Utc>)`: an instant, embedded as nanoseconds since
the Unix epoch. -/
structure Datetime where
  nanos : Int
deriving DecidableEq, Repr

/-- Hinnant's civil-from-days algorithm, the calendar computation underlying
chrono's conversion from a day count to a proleptic-Gregorian `(y, m, d)`. -/
def civilFromDays (z0 : Int) : Int × Nat × Nat :=
  let z := z0 + 719468
  let era : Int := Int.ediv z 146097
  let doe : Nat := (Int.emod z 146097).toNat
  let yoe : Nat := (doe - doe / 1460 + doe / 36524 - doe / 146096) / 365
  let y : Int := (yoe : Int) + era * 400
  let doy : Nat := doe - (365 * yoe + yoe / 4 - yoe / 100)
  let mp : Nat := (5 * doy + 2) / 153
  let d : Nat := doy - (153 * mp + 2) / 5 + 1
  let m : Nat := if mp < 10 then mp + 3 else mp - 9
  (if m ≤ 2 then y + 1 else y, m, d)

/-- Hinnant's days-from-civil algorithm: day count of a proleptic-Gregorian
date, inverse of `civilFromDays`. -/
def daysFromCivil (y0 : Int) (m d : Nat) : Int :=
  let y : Int := if m ≤ 2 then y0 - 1 else y0
  let era : Int := Int.ediv y 400
  let yoe : Nat := (Int.emod y 400).toNat
  let mp : Nat := if 3 ≤ m then m - 3 else m + 9
  let doy : Nat := (153 * mp + 2) / 5 + d - 1
  let doe : Nat := yoe * 365 + yoe / 4 - yoe / 100 + doy
  era * 146097 + (doe : Int) - 719468

/-- Smallest timestamp (seconds) chrono accepts: midnight of
`NaiveDate::MIN` (january 1 of year -262144, `i32::MIN >> 13`). -/
def MIN_SECS : Int := 86400 * daysFromCivil (-262144) 1 1

/-- Largest timestamp (seconds) chrono accepts: the last second of
`NaiveDate::MAX` (december 31 of year 262143, `i32::MAX >> 13`). -/
def MAX_SECS : Int := 86400 * daysFromCivil 262143 12 31 + 86399

/-- chrono's valid instant range, in the nanosecond embedding. -/
def Datetime.valid (dt : Datetime) : Prop :=
  MIN_SECS * 1000000000 ≤ dt.nanos ∧ dt.nanos ≤ MAX_SECS * 1000000000 + 999999999

instance (dt : Datetime) : Decidable dt.valid := by
  unfold Datetime.valid; infer_instance

/-- chrono's `LocalResult`: outcome of mapping a local/numeric description to
instants of a timezone. -/
inductive LocalResult (α : Type) where
  | none
  | single (t : α)
  | ambiguous (t1 t2 : α)
deriving DecidableEq, Repr

/-- chrono's `Utc.timestamp_opt(secs, nsecs)`: `Single` exactly when the
nanosecond part is below 2·10⁹ (values ≥ 10⁹ describe a leap second) and the
seconds fall inside the representable date range; otherwise `None`.  For the
UTC timezone the mapping is never ambiguous. -/
def Utc.timestamp_opt (secs : Int) (nsecs : Nat) : LocalResult Datetime :=
  if 2000000000 ≤ nsecs then LocalResult.none
  else if secs < MIN_SECS ∨ MAX_SECS < secs then LocalResult.none
  else LocalResult.single ⟨secs * 1000000000 + nsecs⟩

/-- `impl TryFrom<(i64, u32)> for Datetime`: accept exactly the `Single`
outcome of `Utc.timestamp_opt`; any other outcome is the `()` error. -/
def Datetime.try_from_pair (v : Int × Nat) : Except Unit Datetime :=
  match Utc.timestamp_opt v.1 v.2 with
  | LocalResult.single d => Except.ok d
  | _ => Except.error ()

/-- chrono's `TimeDelta::to_std`: a signed time delta converts to a
`std::time::Duration` exactly when it is non-negative. -/
def timeDelta_to_std (delta : Int) : Option Duration :=
  if delta < 0 then Option.none else Option.some ⟨delta.toNat⟩

/-- Left-pad the decimal rendering of `n` with zeros to width `w`. -/
def padZeros (w : Nat) (n : Nat) : String :=
  let s := toString n
  String.mk (List.replicate (w - s.length) '0') ++ s

/-- Year rendering in chrono's RFC 3339 writer: four zero-padded digits for
0-9999, otherwise a sign followed by the digits. -/
def fmtYear (y : Int) : String :=
  if y < 0 then "-" ++ padZeros 4 (-y).toNat
  else if y ≤ 9999 then padZeros 4 y.toNat
  else "+" ++ toString y.toNat

/-- `Datetime::to_raw`: chrono `to_rfc3339_opts(SecondsFormat::AutoSi, true)`.
Date and time-of-day of the instant, `T`-separated; the fractional part uses
the shortest of 0, 3, 6 or 9 digits that is exact; UTC designator `Z`. -/
def Datetime.to_raw (dt : Datetime) : String :=
  let day : Int := Int.ediv dt.nanos 86400000000000
  let nanosInDay : Nat := (Int.emod dt.nanos 86400000000000).toNat
  let secsInDay : Nat := nanosInDay / 1000000000
  let frac : Nat := nanosInDay % 1000000000
  let ymd := civilFromDays day
  let date := fmtYear ymd.1 ++ "-" ++ padZeros 2 ymd.2.1 ++ "-" ++ padZeros 2 ymd.2.2
  let time := padZeros 2 (secsInDay / 3600) ++ ":" ++ padZeros 2 (secsInDay % 3600 / 60)
    ++ ":" ++ padZeros 2 (secsInDay % 60)
  let fracStr :=
    if frac = 0 then ""
    else if frac % 1000000 = 0 then "." ++ padZeros 3 (frac / 1000000)
    else if frac % 1000 = 0 then "." ++ padZeros 6 (frac / 1000)
    else "." ++ padZeros 9 frac
  date ++ "T" ++ time ++ fracStr ++ "Z"

/-- Modelled from the spec: `crates/core/src/sql/escape.rs` (`QuoteStr`) is
not under src/.  Per the spec the canonical text is wrapped in quoting rules
that escape characters unsafe for the query language's literal syntax: the
text is surrounded by double quotes, with quote and backslash escaped. -/
def escapeChar (c : Char) : List Char :=
  if c = '"' ∨ c = '\\' then ['\\', c] else [c]

/-- Modelled from the spec: double-quoted, escaped rendering of a string. -/
def quoteStr (s : String) : String :=
  "\"" ++ String.mk (s.data.map escapeChar).flatten ++ "\""

/-- `impl Display for Datetime`: `write!(f, "d{}", &QuoteStr(&self.to_raw()))`. -/
def Datetime.display (dt : Datetime) : String :=
  "d" ++ quoteStr dt.to_raw

/-- `impl ops::Sub for Datetime`: convert the signed delta with `to_std`; on
failure return `Duration::default()`. -/
def Datetime.sub (a b : Datetime) : Duration :=
  match timeDelta_to_std (a.nanos - b.nanos) with
  | Option.some d => d
  | Option.none => Duration.default

/-- `impl TrySub for Datetime`: convert the signed delta with `to_std`; on
failure return `Error::ArithmeticNegativeOverflow(format!("{self} - {other}"))`. -/
def Datetime.try_sub (a b : Datetime) : Except Error Duration :=
  match timeDelta_to_std (a.nanos - b.nanos) with
  | Option.some d => Except.ok d
  | Option.none =>
    Except.error (Error.arithmeticNegativeOverflow (a.display ++ " - " ++ b.display))

/-- chrono's `timestamp_nanos_opt`: the nanosecond count when it fits a
signed 64-bit integer, otherwise `None`. -/
def Datetime.timestamp_nanos_opt (dt : Datetime) : Option Int :=
  if -(2 ^ 63) ≤ dt.nanos ∧ dt.nanos < 2 ^ 63 then Option.some dt.nanos else Option.none

/-- `Datetime::to_u64`: `self.0.timestamp_nanos_opt().unwrap_or_default() as u64`.
The `i64::default()` fallback is 0 and the `as u64` cast is the two's-complement
reinterpretation, i.e. reduction modulo 2⁶⁴. -/
def Datetime.to_u64 (dt : Datetime) : Nat :=
  ((dt.timestamp_nanos_opt.getD 0) % (2 ^ 64 : Int)).toNat

/-- Value of an ASCII decimal digit, `Option.none` for any other character. -/
def digitVal (c : Char) : Option Nat :=
  if '0' ≤ c ∧ c ≤ '9' then Option.some (c.toNat - '0'.toNat) else Option.none

/-- Accumulate decimal digits left to right; fail on any non-digit. -/
def parseDigitsAux : List Char → Nat → Option Nat
  | [], acc => Option.some acc
  | c :: cs, acc =>
    match digitVal c with
    | Option.some d => parseDigitsAux cs (acc * 10 + d)
    | Option.none => Option.none

/-- Rust's `str::parse` for an unsigned integer, before the width check: an
optional leading `+`, then one or more ASCII digits, nothing else. -/
def parseNatCore (s : String) : Option Nat :=
  match s.data with
  | [] => Option.none
  | '+' :: cs => if cs = [] then Option.none else parseDigitsAux cs 0
  | cs => parseDigitsAux cs 0

/-- `s.parse::<u32>()`: the digits must also fit the 32-bit width. -/
def parse_u32 (s : String) : Option Nat :=
  match parseNatCore s with
  | Option.some n => if n < 2 ^ 32 then Option.some n else Option.none
  | Option.none => Option.none

/-- `s.parse::<usize>()` on a 64-bit target: the digits must fit 64 bits. -/
def parse_usize (s : String) : Option Nat :=
  match parseNatCore s with
  | Option.some n => if n < 2 ^ 64 then Option.some n else Option.none
  | Option.none => Option.none

/-- Modelled from the spec: the `lazy_env_parse!` macro body is not under
src/.  Per §4.1 a limit resolves to the parsed override when one is set and
parses as the declared type, and to the hard-coded default otherwise.  The
process environment is passed in as an `Option String`. -/
def lazyEnvParse (parse : String → Option Nat) (env : Option String) (dflt : Nat) : Nat :=
  match env with
  | Option.some s => (parse s).getD dflt
  | Option.none => dflt

/-- `MAX_COMPUTATION_DEPTH`: `lazy_env_parse!("SURREAL_MAX_COMPUTATION_DEPTH", u32, 120)`. -/
def MAX_COMPUTATION_DEPTH (env : Option String) : Nat :=
  lazyEnvParse parse_u32 env 120

/-- `REGEX_CACHE_SIZE`: `lazy_env_parse!("SURREAL_REGEX_CACHE_SIZE", usize, 1_000)`. -/
def REGEX_CACHE_SIZE (env : Option String) : Nat :=
  lazyEnvParse parse_usize env 1000

/-- `REGEX_SIZE_LIMIT`: `env::var(..).map(|s| s.parse().unwrap_or(10_485_760)).unwrap_or(10_485_760)`. -/
def REGEX_SIZE_LIMIT (env : Option String) : Nat :=
  match env with
  | Option.some s => (parse_usize s).getD 10485760
  | Option.none => 10485760

/-- `IDIOM_RECURSION_LIMIT`: `env::var(..).map(|s| s.parse().unwrap_or(256)).unwrap_or(256)`. -/
def IDIOM_RECURSION_LIMIT (env : Option String) : Nat :=
  match env with
  | Option.some s => (parse_usize s).getD 256
  | Option.none => 256

/-- The exponent `n` of `GENERATION_ALLOCATION_LIMIT`:
`env::var(..).map(|s| s.parse::<u32>().unwrap_or(20)).unwrap_or(20)`. -/
def GENERATION_ALLOCATION_EXPONENT (env : Option String) : Nat :=
  match env with
  | Option.some s => (parse_u32 s).getD 20
  | Option.none => 20

/-- `GENERATION_ALLOCATION_LIMIT`: `2usize.pow(n)`, taken here as the
mathematical power; the 64-bit word width of `usize` is a separate fact
about which exponents make the materialization representable. -/
def GENERATION_ALLOCATION_LIMIT (env : Option String) : Nat :=
  2 ^ GENERATION_ALLOCATION_EXPONENT env

/-- Errors of the versioned codec.  Modelled from the spec: the
`#[revisioned(revision = 1)]` codec is macro-generated code that is not under
src/; the spec distinguishes the unsupported-revision error from any failure
inside a revision's field reader. -/
inductive CodecError where
  | unsupportedRevision (found : Nat) (max : Nat)
  | fieldError
deriving DecidableEq, Repr

/-- The maximum revision the Datetime decoder knows: `revision = 1`. -/
def Datetime.maxRevision : Nat := 1

/-- A revisioned byte payload: the leading revision tag already split from
the field bytes that follow it. -/
structure Encoded where
  rev : Nat
  payload : List Nat
deriving DecidableEq, Repr

/-- Little-endian byte-list to natural number. -/
def leBytesToNat : List Nat → Nat
  | [] => 0
  | b :: bs => b + 256 * leBytesToNat bs

/-- Modelled from the spec: the revision-1 field reader.  The fields of the
instant are a `(seconds, nanoseconds)` pair in a stable order (8 bytes of
two's-complement seconds, 4 bytes of nanoseconds, little-endian); malformed
bytes or an invalid instant fail with a field error, not an
unsupported-revision error. -/
def decodeFieldsRev1 (payload : List Nat) : Except CodecError Datetime :=
  if payload.length = 12 ∧ payload.all (fun b => b < 256) then
    let secsRaw := leBytesToNat (payload.take 8)
    let secs : Int := if secsRaw < 2 ^ 63 then (secsRaw : Int) else (secsRaw : Int) - 2 ^ 64
    let nsecs := leBytesToNat (payload.drop 8)
    match Utc.timestamp_opt secs nsecs with
    | LocalResult.single d => Except.ok d
    | _ => Except.error CodecError.fieldError
  else Except.error CodecError.fieldError

/-- Modelled from the spec: the generated decoder reads the revision tag and
dispatches; the only known revision is 1, and any other tag fails with the
unsupported-revision error. -/
def Datetime.deserialize_revisioned (e : Encoded) : Except CodecError Datetime :=
  match e.rev with
  | 1 => decodeFieldsRev1 e.payload
  | v => Except.error (CodecError.unsupportedRevision v Datetime.maxRevision)

/-- C1: for every pair of Datetimes `a`, `b` with `a`'s instant not earlier
than `b`'s, the strict subtraction `try_sub a b` succeeds, and its duration
equals the one returned by the best-effort subtraction `a - b`. -/
theorem try_sub_agrees_when_nonnegative (a b : Datetime) (h : b.nanos ≤ a.nanos) :
    a.try_sub b = Except.ok (a.sub b) := by
  unfold Datetime.try_sub Datetime.sub timeDelta_to_std
  have hneg : ¬ a.nanos - b.nanos < 0 := by omega
  simp [hneg]

theorem try_sub_agrees_when_nonnegative_witness :
    (Datetime.mk 1705309200000000000).nanos ≤ (Datetime.mk 1705312800000000000).nanos ∧
    Datetime.try_sub ⟨1705312800000000000⟩ ⟨1705309200000000000⟩ =
      Except.ok (Datetime.sub ⟨1705312800000000000⟩ ⟨1705309200000000000⟩) ∧
    Datetime.sub ⟨1705312800000000000⟩ ⟨1705309200000000000⟩ = ⟨3600000000000⟩ :=
  ⟨by decide, try_sub_agrees_when_nonnegative ⟨1705312800000000000⟩ ⟨1705309200000000000⟩
    (by decide), by decide⟩

/-- C2: for every pair of Datetimes `a`, `b` with `a`'s instant strictly
earlier than `b`'s, `try_sub a b` fails with the negative-overflow arithmetic
error carrying the rendered text of both operands, while the best-effort
subtraction returns the default (zero) duration. -/
theorem try_sub_negative_overflow (a b : Datetime) (h : a.nanos < b.nanos) :
    a.try_sub b = Except.error (Error.arithmeticNegativeOverflow
      (a.display ++ " - " ++ b.display)) ∧
    a.sub b = Duration.default := by
  unfold Datetime.try_sub Datetime.sub timeDelta_to_std
  have hneg : a.nanos - b.nanos < 0 := by omega
  simp [hneg]

theorem try_sub_negative_overflow_witness :
    (Datetime.mk 1705309200000000000).nanos < (Datetime.mk 1705312800000000000).nanos ∧
    (Datetime.try_sub ⟨1705309200000000000⟩ ⟨1705312800000000000⟩ =
      Except.error (Error.arithmeticNegativeOverflow
        (Datetime.display ⟨1705309200000000000⟩ ++ " - "
          ++ Datetime.display ⟨1705312800000000000⟩)) ∧
      Datetime.sub ⟨1705309200000000000⟩ ⟨1705312800000000000⟩ = Duration.default) ∧
    Datetime.display ⟨1705309200000000000⟩ ++ " - " ++ Datetime.display ⟨1705312800000000000⟩
      = "d\"2024-01-15T09:00:00Z\" - d\"2024-01-15T10:00:00Z\"" :=
  ⟨by decide, try_sub_negative_overflow ⟨1705309200000000000⟩ ⟨1705312800000000000⟩
    (by decide), by decide⟩

/-- C3: decoding any byte payload whose leading revision tag exceeds the
decoder's maximum known revision (1 for Datetime) fails with exactly the
unsupported-revision error: it never succeeds and never fails differently. -/
theorem deserialize_unsupported_revision (e : Encoded) (h : Datetime.maxRevision < e.rev) :
    Datetime.deserialize_revisioned e =
      Except.error (CodecError.unsupportedRevision e.rev Datetime.maxRevision) := by
  unfold Datetime.deserialize_revisioned
  obtain ⟨rev, payload⟩ := e
  rcases rev with _ | _ | n
  · rfl
  · simp [Datetime.maxRevision] at h
  · rfl

theorem deserialize_unsupported_revision_witness :
    Datetime.maxRevision < (2 : Nat) ∧
    Datetime.deserialize_revisioned ⟨2, [0, 0, 0]⟩ =
      Except.error (CodecError.unsupportedRevision 2 Datetime.maxRevision) :=
  ⟨by decide, deserialize_unsupported_revision ⟨2, [0, 0, 0]⟩ (by decide)⟩

/-- C4: with the environment override unset, every limit resolves to its
hard-coded default; in particular the max computation recursion depth
resolves to 120 and the regex cache capacity to 1000. -/
theorem unset_override_gives_default :
    (∀ dflt : Nat, lazyEnvParse parse_u32 Option.none dflt = dflt) ∧
    (∀ dflt : Nat, lazyEnvParse parse_usize Option.none dflt = dflt) ∧
    MAX_COMPUTATION_DEPTH Option.none = 120 ∧
    REGEX_CACHE_SIZE Option.none = 1000 ∧
    REGEX_SIZE_LIMIT Option.none = 10485760 ∧
    IDIOM_RECURSION_LIMIT Option.none = 256 :=
  ⟨fun _ => rfl, fun _ => rfl, rfl, rfl, rfl, rfl⟩

/-- C5: an environment override string that does not parse as the limit's
integer type resolves to the hard-coded default; the malformed value is
absorbed without any error result. -/
theorem malformed_override_falls_back (s : String) (h : parse_usize s = Option.none) :
    REGEX_SIZE_LIMIT (Option.some s) = 10485760 ∧
    IDIOM_RECURSION_LIMIT (Option.some s) = 256 := by
  constructor <;> simp [REGEX_SIZE_LIMIT, IDIOM_RECURSION_LIMIT, h]

theorem malformed_override_falls_back_witness :
    parse_usize "abc" = Option.none ∧
    REGEX_SIZE_LIMIT (Option.some "abc") = 10485760 ∧
    IDIOM_RECURSION_LIMIT (Option.some "abc") = 256 :=
  ⟨by decide, (malformed_override_falls_back "abc" (by decide)).1,
    (malformed_override_falls_back "abc" (by decide)).2⟩

/-- C6: the generation allocation limit parses its override as an exponent
`n`, falling back to exponent 20 when unset or unparseable, and materializes
`2 ^ n`; with no override it resolves to `2 ^ 20 = 1048576`. -/
theorem generation_allocation_limit_resolution :
    GENERATION_ALLOCATION_LIMIT Option.none = 2 ^ 20 ∧
    GENERATION_ALLOCATION_LIMIT Option.none = 1048576 ∧
    (∀ s : String, parse_u32 s = Option.none →
      GENERATION_ALLOCATION_LIMIT (Option.some s) = 2 ^ 20) ∧
    (∀ (s : String) (n : Nat), parse_u32 s = Option.some n →
      GENERATION_ALLOCATION_LIMIT (Option.some s) = 2 ^ n) := by
  refine ⟨rfl, by decide, ?_, ?_⟩
  · intro s h
    simp [GENERATION_ALLOCATION_LIMIT, GENERATION_ALLOCATION_EXPONENT, h]
  · intro s n h
    simp [GENERATION_ALLOCATION_LIMIT, GENERATION_ALLOCATION_EXPONENT, h]

theorem generation_allocation_limit_resolution_witness :
    (parse_u32 "7" = Option.some 7 ∧
      GENERATION_ALLOCATION_LIMIT (Option.some "7") = 2 ^ 7) ∧
    (parse_u32 "zz" = Option.none ∧
      GENERATION_ALLOCATION_LIMIT (Option.some "zz") = 2 ^ 20) :=
  ⟨⟨by decide, generation_allocation_limit_resolution.2.2.2 "7" 7 (by decide)⟩,
    ⟨by decide, generation_allocation_limit_resolution.2.2.1 "zz" (by decide)⟩⟩

/-- C7 counterexample: the instant at `2 ^ 63` nanoseconds since the epoch is
a valid chrono instant whose nanosecond count is representable in the
unsigned 64-bit target width, yet `to_u64` returns 0, not the exact count:
the conversion checks the signed 64-bit width, not the unsigned one. -/
theorem to_u64_representable_returns_zero :
    Datetime.valid ⟨2 ^ 63⟩ ∧
    0 ≤ (Datetime.mk (2 ^ 63)).nanos ∧ (Datetime.mk (2 ^ 63)).nanos < 2 ^ 64 ∧
    Datetime.to_u64 ⟨2 ^ 63⟩ = 0 ∧
    Int.toNat (Datetime.mk (2 ^ 63)).nanos ≠ 0 :=
  ⟨by decide, by decide, by decide, by decide, by decide⟩

/-- C7 amended: `to_u64` is governed by the signed 64-bit width of
`timestamp_nanos_opt`: when the nanosecond count fits a signed 64-bit
integer the result is the count reduced modulo `2 ^ 64` (hence exact for
non-negative counts, a two's-complement wrap for negative ones), and when it
does not fit, the result is the default 0. -/
theorem to_u64_signed_width_behaviour (dt : Datetime) :
    (-(2 ^ 63) ≤ dt.nanos ∧ dt.nanos < 2 ^ 63 →
      dt.to_u64 = (dt.nanos % (2 ^ 64 : Int)).toNat) ∧
    (0 ≤ dt.nanos ∧ dt.nanos < 2 ^ 63 → dt.to_u64 = Int.toNat dt.nanos) ∧
    (¬ (-(2 ^ 63) ≤ dt.nanos ∧ dt.nanos < 2 ^ 63) → dt.to_u64 = 0) := by
  unfold Datetime.to_u64 Datetime.timestamp_nanos_opt
  refine ⟨?_, ?_, ?_⟩
  · intro h
    rw [if_pos h]
    rfl
  · intro h
    have h' : -(2 ^ 63) ≤ dt.nanos ∧ dt.nanos < 2 ^ 63 := ⟨by omega, h.2⟩
    have hm : dt.nanos % (2 ^ 64 : Int) = dt.nanos := Int.emod_eq_of_lt h.1 (by omega)
    rw [if_pos h']
    simp only [Option.getD_some]
    rw [hm]
  · intro h
    rw [if_neg h]
    rfl

theorem to_u64_signed_width_behaviour_witness :
    (-(2 ^ 63) ≤ (Datetime.mk (-1)).nanos ∧ (Datetime.mk (-1)).nanos < 2 ^ 63) ∧
    Datetime.to_u64 ⟨-1⟩ = ((-1 : Int) % (2 ^ 64 : Int)).toNat ∧
    Datetime.to_u64 ⟨-1⟩ = 18446744073709551615 :=
  ⟨by decide, (to_u64_signed_width_behaviour ⟨-1⟩).1 (by decide), by decide⟩

/-- C8: constructing a Datetime from a `(seconds, nanoseconds)` pair succeeds
exactly when the timezone mapping yields a single valid instant; when it
yields no instant (or an ambiguous one) the construction returns the error.
The single outcome happens precisely for nanoseconds below 2·10⁹ and seconds
inside the representable range. -/
theorem pair_construction_exactly_single :
    (∀ (s : Int) (n : Nat) (d : Datetime),
      Datetime.try_from_pair (s, n) = Except.ok d ↔
        Utc.timestamp_opt s n = LocalResult.single d) ∧
    (∀ (s : Int) (n : Nat), n < 2000000000 → MIN_SECS ≤ s → s ≤ MAX_SECS →
      Utc.timestamp_opt s n = LocalResult.single ⟨s * 1000000000 + n⟩ ∧
      Datetime.try_from_pair (s, n) = Except.ok ⟨s * 1000000000 + n⟩) ∧
    (∀ (s : Int) (n : Nat), 2000000000 ≤ n ∨ s < MIN_SECS ∨ MAX_SECS < s →
      Utc.timestamp_opt s n = LocalResult.none ∧
      Datetime.try_from_pair (s, n) = Except.error ()) := by
  refine ⟨?_, ?_, ?_⟩
  · intro s n d
    cases h : Utc.timestamp_opt s n <;> simp [Datetime.try_from_pair, h]
  · intro s n h1 h2 h3
    have hc1 : ¬ 2000000000 ≤ n := by omega
    have hc2 : ¬ (s < MIN_SECS ∨ MAX_SECS < s) := by omega
    unfold Datetime.try_from_pair Utc.timestamp_opt
    rw [if_neg hc1, if_neg hc2]
    exact ⟨rfl, rfl⟩
  · intro s n h
    unfold Datetime.try_from_pair Utc.timestamp_opt
    by_cases hn : 2000000000 ≤ n
    · rw [if_pos hn]
      exact ⟨rfl, rfl⟩
    · have hc2 : s < MIN_SECS ∨ MAX_SECS < s := by omega
      rw [if_neg hn, if_pos hc2]
      exact ⟨rfl, rfl⟩

theorem pair_construction_exactly_single_witness :
    ((0 : Nat) < 2000000000 ∧ MIN_SECS ≤ (1705312800 : Int) ∧ (1705312800 : Int) ≤ MAX_SECS) ∧
    (Utc.timestamp_opt 1705312800 0 = LocalResult.single ⟨1705312800 * 1000000000 + 0⟩ ∧
      Datetime.try_from_pair (1705312800, 0) = Except.ok ⟨1705312800 * 1000000000 + 0⟩) ∧
    (Utc.timestamp_opt 0 2000000000 = LocalResult.none ∧
      Datetime.try_from_pair (0, 2000000000) = Except.error ()) :=
  ⟨⟨by decide, by decide, by decide⟩,
    pair_construction_exactly_single.2.1 1705312800 0 (by decide) (by decide) (by decide),
    pair_construction_exactly_single.2.2 0 2000000000 (Or.inl (by decide))⟩

/-- C9: the display rendering of every Datetime is the sigil `d` immediately
followed by the quoted canonical RFC 3339 text of the instant; on concrete
instants this produces exactly the `d"<rfc3339-instant>"` form with the UTC
designator and the shortest exact fractional part. -/
theorem display_sigil_quoted_rfc3339 :
    (∀ dt : Datetime, dt.display = "d" ++ quoteStr dt.to_raw) ∧
    Datetime.to_raw ⟨1705312800000000000⟩ = "2024-01-15T10:00:00Z" ∧
    Datetime.display ⟨1705312800000000000⟩ = "d\"2024-01-15T10:00:00Z\"" ∧
    Datetime.to_raw ⟨1705312800123000000⟩ = "2024-01-15T10:00:00.123Z" ∧
    Datetime.display ⟨1705312800123000000⟩ = "d\"2024-01-15T10:00:00.123Z\"" :=
  ⟨fun _ => rfl, by decide, by decide, by decide, by decide⟩

/-- C10: the generation-allocation materialization applies no saturating
policy: an override parsing as an exponent `n ≤ 63` yields exactly `2 ^ n`,
which fits the 64-bit word, while any parseable `n ≥ 64` makes the
mathematical value `2 ^ n` exceed the unsigned 64-bit word width, so the
initialization is not total over all parseable exponents. -/
theorem generation_allocation_no_saturation (s : String) (n : Nat)
    (h : parse_u32 s = Option.some n) :
    (n ≤ 63 → GENERATION_ALLOCATION_LIMIT (Option.some s) = 2 ^ n ∧
      GENERATION_ALLOCATION_LIMIT (Option.some s) < 2 ^ 64) ∧
    (64 ≤ n → 2 ^ 64 ≤ GENERATION_ALLOCATION_LIMIT (Option.some s)) := by
  have hv : GENERATION_ALLOCATION_LIMIT (Option.some s) = 2 ^ n := by
    simp [GENERATION_ALLOCATION_LIMIT, GENERATION_ALLOCATION_EXPONENT, h]
  constructor
  · intro hle
    refine ⟨hv, ?_⟩
    rw [hv]
    exact Nat.pow_lt_pow_right (by omega) (by omega)
  · intro hge
    rw [hv]
    exact Nat.pow_le_pow_right (by omega) hge

theorem generation_allocation_no_saturation_witness :
    (parse_u32 "70" = Option.some 70 ∧
      2 ^ 64 ≤ GENERATION_ALLOCATION_LIMIT (Option.some "70")) ∧
    (parse_u32 "63" = Option.some 63 ∧
      GENERATION_ALLOCATION_LIMIT (Option.some "63") = 2 ^ 63 ∧
      GENERATION_ALLOCATION_LIMIT (Option.some "63") < 2 ^ 64) :=
  ⟨⟨by decide, (generation_allocation_no_saturation "70" 70 (by decide)).2 (by decide)⟩,
    ⟨by decide, (generation_allocation_no_saturation "63" 63 (by decide)).1 (by decide)⟩⟩

end Surreal
